import Mathlib

/-!
Shallow embedding of the goads ADS/AMS client core (Go) and verification of
spec claims against it.  Bytes are modelled as `Nat` values below 256; byte
streams as `List Nat`; little-endian integer fields as `Nat` with explicit
width bounds.  Fallible operations return `Option`/`Except`.
-/

namespace Goads

/-! ## Little-endian byte primitives

Modelled from the spec: "all multi-byte integers are little-endian".  The Go
`ams.Buffer` (WriteUint16/WriteUint32/ReadUint16/ReadUint32/WriteN/ReadN) is
not under src/; its behaviour is modelled from the spec's byte layouts. -/

/-- Modelled from the spec: little-endian 16-bit write of `ams.Buffer.WriteUint16`. -/
def u16le (n : Nat) : List Nat :=
  [n % 256, n / 256 % 256]

/-- Modelled from the spec: little-endian 32-bit write of `ams.Buffer.WriteUint32`. -/
def u32le (n : Nat) : List Nat :=
  [n % 256, n / 256 % 256, n / 65536 % 256, n / 16777216 % 256]

/-- Modelled from the spec: `ams.Buffer.ReadUint16`, little-endian; fails on a short stream. -/
def readU16 : List Nat → Option (Nat × List Nat)
  | b0 :: b1 :: rest => some (b0 + b1 * 256, rest)
  | _ => none

/-- Modelled from the spec: `ams.Buffer.ReadUint32`, little-endian; fails on a short stream. -/
def readU32 : List Nat → Option (Nat × List Nat)
  | b0 :: b1 :: b2 :: b3 :: rest =>
      some (b0 + b1 * 256 + b2 * 65536 + b3 * 16777216, rest)
  | _ => none

/-- Modelled from the spec: `ams.Buffer.ReadN n`, reading exactly `n` bytes;
fails on a short stream. -/
def readN (n : Nat) (l : List Nat) : Option (List Nat × List Nat) :=
  if n ≤ l.length then some (l.take n, l.drop n) else none

/-- Modelled from the spec: `ams.Buffer.WriteN data n` writes the `n` bytes
`data:size bytes` of the wire layout (padding with zeros if `data` is short). -/
def writeN (data : List Nat) (n : Nat) : List Nat :=
  data.take n ++ List.replicate (n - data.length) 0

/-! ## Addresses and headers

Modelled from the spec: "AmsAddr: a 6-byte NetId ... paired with a 16-bit
port"; "AMSHeader (32 bytes)" carrying target, sender, CmdID (u16),
StateFlags (u16), length (u32), errorCode (u32), invokeID (u32);
"TCPHeader (6 bytes: 2 reserved + 4 payload length)".  The Go source files
declaring these (`ams` package header/buffer files) are not under src/. -/

/-- Modelled from the spec: `ams.Addr`, a 6-byte NetId plus a 16-bit port. -/
structure Addr where
  netId : List Nat
  port : Nat
  deriving Repr, DecidableEq

/-- Modelled from the spec: `ams.AMSHeader`, the 32-byte AMS header. -/
structure AMSHeader where
  target : Addr
  sender : Addr
  cmdId : Nat
  stateFlags : Nat
  length : Nat
  errorCode : Nat
  invokeId : Nat
  deriving Repr, DecidableEq

/-- Modelled from the spec: `ams.TCPHeader`, 2 reserved bytes plus a u32 payload length. -/
structure TCPHeader where
  reserved : Nat
  length : Nat
  deriving Repr, DecidableEq

/-- Modelled from the spec: byte layout of `ams.Addr` (NetId then port, little-endian). -/
def encodeAddr (a : Addr) : List Nat :=
  a.netId ++ u16le a.port

/-- Modelled from the spec: decoding of `ams.Addr`. -/
def decodeAddr (l : List Nat) : Option (Addr × List Nat) :=
  match readN 6 l with
  | none => none
  | some (netId, l1) =>
    match readU16 l1 with
    | none => none
    | some (port, l2) => some ({netId := netId, port := port}, l2)

/-- Modelled from the spec: byte layout of the 32-byte AMS header. -/
def encodeAMSHeader (h : AMSHeader) : List Nat :=
  encodeAddr h.target ++ encodeAddr h.sender ++ u16le h.cmdId ++ u16le h.stateFlags ++
    u32le h.length ++ u32le h.errorCode ++ u32le h.invokeId

/-- Modelled from the spec: decoding of the 32-byte AMS header. -/
def decodeAMSHeader (l : List Nat) : Option (AMSHeader × List Nat) :=
  match decodeAddr l with
  | none => none
  | some (target, l1) =>
    match decodeAddr l1 with
    | none => none
    | some (sender, l2) =>
      match readU16 l2 with
      | none => none
      | some (cmdId, l3) =>
        match readU16 l3 with
        | none => none
        | some (stateFlags, l4) =>
          match readU32 l4 with
          | none => none
          | some (length, l5) =>
            match readU32 l5 with
            | none => none
            | some (errorCode, l6) =>
              match readU32 l6 with
              | none => none
              | some (invokeId, l7) =>
                some ({target := target, sender := sender, cmdId := cmdId,
                       stateFlags := stateFlags, length := length,
                       errorCode := errorCode, invokeId := invokeId}, l7)

/-- Modelled from the spec: byte layout of the 6-byte TCP header. -/
def encodeTCPHeader (h : TCPHeader) : List Nat :=
  u16le h.reserved ++ u32le h.length

/-- Modelled from the spec: decoding of the 6-byte TCP header. -/
def decodeTCPHeader (l : List Nat) : Option (TCPHeader × List Nat) :=
  match readU16 l with
  | none => none
  | some (reserved, l1) =>
    match readU32 l1 with
    | none => none
    | some (length, l2) => some ({reserved := reserved, length := length}, l2)

/-- Width bounds for a well-formed `Addr`. -/
def Addr.WF (a : Addr) : Prop :=
  a.netId.length = 6 ∧ a.port < 65536

/-- Width bounds for a well-formed AMS header. -/
def AMSHeader.WF (h : AMSHeader) : Prop :=
  h.target.WF ∧ h.sender.WF ∧ h.cmdId < 65536 ∧ h.stateFlags < 65536 ∧
    h.length < 4294967296 ∧ h.errorCode < 4294967296 ∧ h.invokeId < 4294967296

/-- Width bounds for a well-formed TCP header. -/
def TCPHeader.WF (h : TCPHeader) : Prop :=
  h.reserved < 65536 ∧ h.length < 4294967296

instance (a : Addr) : Decidable a.WF := by unfold Addr.WF; infer_instance

instance (h : AMSHeader) : Decidable h.WF := by unfold AMSHeader.WF; infer_instance

instance (h : TCPHeader) : Decidable h.WF := by unfold TCPHeader.WF; infer_instance

/-! ## DeviceNotification packet (src/ams/notification.go) -/

/-- `ams.NotificationSample`: one sample within a notification stamp. -/
structure WireNotificationSample where
  handle : Nat
  size : Nat
  data : List Nat
  deriving Repr, DecidableEq

/-- `ams.NotificationStamp`: one timestamped group of samples. -/
structure NotificationStamp where
  timestamp : Nat
  sampleCount : Nat
  samples : List WireNotificationSample
  deriving Repr, DecidableEq

/-- `ams.DeviceNotificationRequest`: the ADS Device Notification packet. -/
structure DeviceNotificationRequest where
  tcpHeader : TCPHeader
  amsHeader : AMSHeader
  length : Nat
  stampCount : Nat
  stamps : List NotificationStamp
  deriving Repr, DecidableEq

/-- Sample part of `DeviceNotificationRequest.Encode`: handle, size, then
`size` data bytes. -/
def encodeWireSample (s : WireNotificationSample) : List Nat :=
  u32le s.handle ++ u32le s.size ++ writeN s.data s.size

/-- Stamp part of `DeviceNotificationRequest.Encode`: the u64 timestamp as two
little-endian u32 halves, the sample count, then the samples in order. -/
def encodeStamp (st : NotificationStamp) : List Nat :=
  u32le (st.timestamp % 4294967296) ++ u32le (st.timestamp / 4294967296 % 4294967296) ++
    u32le st.sampleCount ++ (st.samples.map encodeWireSample).flatten

/-- `DeviceNotificationRequest.Encode`: headers, stream header
(length, stampCount), then the stamps in order. -/
def encodeDeviceNotificationRequest (r : DeviceNotificationRequest) : List Nat :=
  encodeTCPHeader r.tcpHeader ++ encodeAMSHeader r.amsHeader ++
    u32le r.length ++ u32le r.stampCount ++ (r.stamps.map encodeStamp).flatten

/-- Sample part of `DeviceNotificationRequest.Decode`: handle, size, then
`size` data bytes; any short read is a decode error. -/
def decodeWireSample (l : List Nat) : Option (WireNotificationSample × List Nat) :=
  match readU32 l with
  | none => none
  | some (handle, l1) =>
    match readU32 l1 with
    | none => none
    | some (size, l2) =>
      match readN size l2 with
      | none => none
      | some (data, l3) => some ({handle := handle, size := size, data := data}, l3)

/-- Reads `n` consecutive samples, as the inner loop of
`DeviceNotificationRequest.Decode` does. -/
def decodeWireSamples : Nat → List Nat → Option (List WireNotificationSample × List Nat)
  | 0, l => some ([], l)
  | n + 1, l =>
    match decodeWireSample l with
    | none => none
    | some (s, l1) =>
      match decodeWireSamples n l1 with
      | none => none
      | some (ss, l2) => some (s :: ss, l2)

/-- Stamp part of `DeviceNotificationRequest.Decode`: two u32 timestamp halves
recombined as `low ||| high << 32`, the sample count, then that many samples. -/
def decodeStamp (l : List Nat) : Option (NotificationStamp × List Nat) :=
  match readU32 l with
  | none => none
  | some (low, l1) =>
    match readU32 l1 with
    | none => none
    | some (high, l2) =>
      match readU32 l2 with
      | none => none
      | some (sc, l3) =>
        match decodeWireSamples sc l3 with
        | none => none
        | some (samples, l4) =>
          some ({timestamp := low + high * 4294967296, sampleCount := sc,
                 samples := samples}, l4)

/-- Reads `n` consecutive stamps, as the outer loop of
`DeviceNotificationRequest.Decode` does. -/
def decodeStamps : Nat → List Nat → Option (List NotificationStamp × List Nat)
  | 0, l => some ([], l)
  | n + 1, l =>
    match decodeStamp l with
    | none => none
    | some (st, l1) =>
      match decodeStamps n l1 with
      | none => none
      | some (sts, l2) => some (st :: sts, l2)

/-- `DeviceNotificationRequest.Decode`: headers, stream header, then
`stampCount` stamps (an empty stamp list when the count is zero). -/
def decodeDeviceNotificationRequest (l : List Nat) : Option DeviceNotificationRequest :=
  match decodeTCPHeader l with
  | none => none
  | some (tcp, l1) =>
    match decodeAMSHeader l1 with
    | none => none
    | some (amsHdr, l2) =>
      match readU32 l2 with
      | none => none
      | some (len, l3) =>
        match readU32 l3 with
        | none => none
        | some (sc, l4) =>
          match decodeStamps sc l4 with
          | none => none
          | some (stamps, _) =>
            some {tcpHeader := tcp, amsHeader := amsHdr, length := len,
                  stampCount := sc, stamps := stamps}

/-- Well-formed sample: the size field equals the data length and fits in u32. -/
def WireNotificationSample.WF (s : WireNotificationSample) : Prop :=
  s.size = s.data.length ∧ s.handle < 4294967296 ∧ s.size < 4294967296

/-- Well-formed stamp: the sample count equals the number of samples, the
timestamp fits in u64, and every sample is well-formed. -/
def NotificationStamp.WF (st : NotificationStamp) : Prop :=
  st.sampleCount = st.samples.length ∧ st.timestamp < 18446744073709551616 ∧
    st.sampleCount < 4294967296 ∧ ∀ s ∈ st.samples, s.WF

/-- Well-formed DeviceNotification packet: consistent headers and counts. -/
def DeviceNotificationRequest.WF (r : DeviceNotificationRequest) : Prop :=
  r.tcpHeader.WF ∧ r.amsHeader.WF ∧ r.length < 4294967296 ∧
    r.stampCount = r.stamps.length ∧ r.stampCount < 4294967296 ∧
    ∀ st ∈ r.stamps, st.WF

instance (s : WireNotificationSample) : Decidable s.WF := by
  unfold WireNotificationSample.WF; infer_instance

instance (st : NotificationStamp) : Decidable st.WF := by
  unfold NotificationStamp.WF; infer_instance

instance (r : DeviceNotificationRequest) : Decidable r.WF := by
  unfold DeviceNotificationRequest.WF; infer_instance

/-- A concrete well-formed DeviceNotification packet (one stamp, one sample),
used to witness the round-trip theorem. -/
def sampleNotificationPacket : DeviceNotificationRequest :=
  { tcpHeader := { reserved := 0, length := 61 }
    amsHeader :=
      { target := { netId := [192, 168, 0, 1, 1, 1], port := 851 }
        sender := { netId := [192, 168, 0, 2, 1, 1], port := 32905 }
        cmdId := 8, stateFlags := 4, length := 29, errorCode := 0, invokeId := 0 }
    length := 21
    stampCount := 1
    stamps := [{ timestamp := 132580694400000000, sampleCount := 1,
                 samples := [{ handle := 7, size := 1, data := [1] }] }] }

/-! ## Command ids and state flags

Modelled from the spec: the closed command set and the StateFlags bits
(the `ams` constants file is not under src/). -/

/-- Modelled from the spec: ReadDeviceInfo command id. -/
def CmdADSReadDeviceInfo : Nat := 1

/-- Modelled from the spec: Read command id. -/
def CmdADSRead : Nat := 2

/-- Modelled from the spec: Write command id. -/
def CmdADSWrite : Nat := 3

/-- Modelled from the spec: ReadState command id. -/
def CmdADSReadState : Nat := 4

/-- Modelled from the spec: AddDeviceNotification command id. -/
def CmdADSAddDeviceNotification : Nat := 6

/-- Modelled from the spec: DeleteDeviceNotification command id. -/
def CmdADSDeleteDeviceNotification : Nat := 7

/-- Modelled from the spec: DeviceNotification command id. -/
def CmdADSDeviceNotification : Nat := 8

/-- Modelled from the spec: ReadWrite command id. -/
def CmdADSReadWrite : Nat := 9

/-- Modelled from the spec: the ADSCommand StateFlags bit (0x0004). -/
def StateADSCommand : Nat := 4

/-- Modelled from the spec: the Response StateFlags bit (0x0001). -/
def StateResponse : Nat := 1

/-- Modelled from the spec: the zero AMS error code. -/
def NoError : Nat := 0

/-- Modelled from the spec: `ams.HasState`, testing a StateFlags bit. -/
def HasState (h : AMSHeader) (flag : Nat) : Bool :=
  h.stateFlags &&& flag != 0

/-- Modelled from the spec: a Read response frame is `CmdID=Read` with the Response bit. -/
def IsReadResponse (h : AMSHeader) : Bool :=
  h.cmdId == CmdADSRead && HasState h StateResponse

/-- Modelled from the spec: a Write response frame is `CmdID=Write` with the Response bit. -/
def IsWriteResponse (h : AMSHeader) : Bool :=
  h.cmdId == CmdADSWrite && HasState h StateResponse

/-- Modelled from the spec: a ReadWrite response frame is `CmdID=ReadWrite` with the Response bit. -/
def IsReadWriteResponse (h : AMSHeader) : Bool :=
  h.cmdId == CmdADSReadWrite && HasState h StateResponse

/-- Modelled from the spec: an inbound ReadState request is `CmdID=ReadState` without the Response bit. -/
def IsReadStateRequest (h : AMSHeader) : Bool :=
  h.cmdId == CmdADSReadState && !HasState h StateResponse

/-- `ams.IsDeviceNotificationRequest` (src/ams/notification.go): matched by CmdID alone. -/
def IsDeviceNotificationRequest (h : AMSHeader) : Bool :=
  h.cmdId == CmdADSDeviceNotification

/-- `ams.IsAddDeviceNotificationResponse` (AddDeviceNotification packet file). -/
def IsAddDeviceNotificationResponse (h : AMSHeader) : Bool :=
  h.cmdId == CmdADSAddDeviceNotification && HasState h StateResponse

/-- `ams.IsDeleteDeviceNotificationResponse` (DeleteDeviceNotification packet file). -/
def IsDeleteDeviceNotificationResponse (h : AMSHeader) : Bool :=
  h.cmdId == CmdADSDeleteDeviceNotification && HasState h StateResponse

/-! ## Receive pump and response-slot table (src/client.go) -/

/-- How one inbound frame is classified by the pump's switch (client.go:127-146). -/
inductive PacketKind where
  | readResponse
  | writeResponse
  | readWriteResponse
  | readStateRequest
  | deviceNotificationRequest
  | addDeviceNotificationResponse
  | deleteDeviceNotificationResponse
  | unknown
  deriving Repr, DecidableEq

/-- The pump's packet-type switch (client.go:127-146), in source order. -/
def classifyHeader (h : AMSHeader) : PacketKind :=
  if IsReadResponse h then .readResponse
  else if IsWriteResponse h then .writeResponse
  else if IsReadWriteResponse h then .readWriteResponse
  else if IsReadStateRequest h then .readStateRequest
  else if IsDeviceNotificationRequest h then .deviceNotificationRequest
  else if IsAddDeviceNotificationResponse h then .addDeviceNotificationResponse
  else if IsDeleteDeviceNotificationResponse h then .deleteDeviceNotificationResponse
  else .unknown

/-- Whether the pump keeps looping or exits. -/
inductive PumpAction where
  | continueLoop
  | terminate
  deriving Repr, DecidableEq

/-- The pump's handling of a body-decode failure for a recognized packet kind
(client.go:149-165): a DeviceNotification is skipped, logging exactly when a
notification callback is registered; any other recognized packet is logged
and the error is returned, terminating the pump.  The second component
records whether the failure was logged. -/
def receiveStepDecodeFailure (kind : PacketKind) (callbackRegistered : Bool) :
    PumpAction × Bool :=
  match kind with
  | .deviceNotificationRequest => (.continueLoop, callbackRegistered)
  | _ => (.terminate, true)

/-- The mutable client state of `Client` (client.go): the invoke-id counter,
the response-slot table (modelled by its set of registered invoke-id keys),
and the cached ADS/device states. -/
structure ClientState where
  nextInvokeID : Nat
  handler : List Nat
  adsState : Nat
  deviceState : Nat
  deriving Repr, DecidableEq

/-- Go map assignment `c.handler[id] = h`: the key becomes present. -/
def insertHandler (id : Nat) (l : List Nat) : List Nat :=
  if id ∈ l then l else id :: l

/-- Go map `delete(c.handler, id)`: the key becomes absent. -/
def removeHandler (id : Nat) (l : List Nat) : List Nat :=
  l.filter (fun x => x ≠ id)

/-- How the wait in `Client.send` ends (client.go:289-296). -/
inductive WaitOutcome where
  | responded
  | ctxCancelled
  | timedOut
  deriving Repr, DecidableEq

/-- The result `Client.send` returns to its caller. -/
inductive SendResult where
  | ok
  | cancelled
  | timeout
  | writeError
  deriving Repr, DecidableEq

/-- `Client.send` (client.go:255-297): assign a fresh invoke-id, register the
response slot, write, then wait.  `writeOk` is whether the connection write
succeeded; `w` is how the select ends.  Only the failed-write path deletes
the registration; the cancelled and timed-out paths return with the slot
still registered.  In the `responded` case the pump has already popped the
slot before delivering, so `send` itself leaves the table unchanged there too. -/
def Client.send (st : ClientState) (writeOk : Bool) (w : WaitOutcome) :
    SendResult × ClientState :=
  let iid := (st.nextInvokeID + 1) % 4294967296
  let st1 : ClientState :=
    { st with nextInvokeID := iid, handler := insertHandler iid st.handler }
  if writeOk then
    match w with
    | .responded => (.ok, st1)
    | .ctxCancelled => (.cancelled, st1)
    | .timedOut => (.timeout, st1)
  else
    (.writeError, { st1 with handler := removeHandler iid st1.handler })

/-- Whether the pump delivered an inbound response or dropped it. -/
inductive DeliverResult where
  | delivered
  | dropped
  deriving Repr, DecidableEq

/-- The pump's response-forwarding branch (client.go:194-221): pop the slot
registered under the frame's invoke-id; deliver into it when it exists,
otherwise drop the packet. -/
def receiveDeliverResponse (st : ClientState) (invokeID : Nat) :
    DeliverResult × ClientState :=
  if invokeID ∈ st.handler then
    (.delivered, { st with handler := removeHandler invokeID st.handler })
  else
    (.dropped, st)

/-! ## ReadState handling (src/client.go:226-251) -/

/-- The inbound ReadState request frame (body is empty, per the spec layout). -/
structure ReadStateRequest where
  amsHeader : AMSHeader
  deriving Repr, DecidableEq

/-- The ReadState response frame: result (u32), adsState (u16), deviceState (u16). -/
structure ReadStateResponse where
  amsHeader : AMSHeader
  result : Nat
  adsState : Nat
  deviceState : Nat
  deriving Repr, DecidableEq

/-- Modelled from the spec: `ams.NewReadStateResponse` (the ReadState packet
file is not under src/), building a response frame with the given result and
the two u16 state values; header addressed to the given target, carrying the
ReadState command id with the Response bit, body length 8. -/
def NewReadStateResponse (target sender : Addr) (result adsState deviceState : Nat) :
    ReadStateResponse :=
  { amsHeader :=
      { target := target, sender := sender, cmdId := CmdADSReadState,
        stateFlags := StateADSCommand ||| StateResponse, length := 8,
        errorCode := 0, invokeId := 0 }
    result := result, adsState := adsState, deviceState := deviceState }

/-- `Client.sendResponse` (client.go:238-251): copy the request's invoke-id
into the response and write it; the returned frame is the single frame written. -/
def Client.sendResponse (req : ReadStateRequest) (resp : ReadStateResponse) :
    ReadStateResponse :=
  { resp with amsHeader := { resp.amsHeader with invokeId := req.amsHeader.invokeId } }

/-- `Client.handleReadStateRequest` (client.go:226-230): reply with a
ReadStateResponse carrying `NoError` and the cached ADS and device states,
addressed back to the request's sender. -/
def Client.handleReadStateRequest (st : ClientState) (req : ReadStateRequest) :
    ReadStateResponse :=
  Client.sendResponse req
    (NewReadStateResponse req.amsHeader.sender req.amsHeader.target NoError
      st.adsState st.deviceState)

/-! ## Notification manager (src/unnamed/part_000) -/

/-- `notificationHandler`: the per-handle subscription record (the user
callback is modelled by whether one is present). -/
structure NotifHandlerEntry where
  handle : Nat
  varName : String
  varHandle : Nat
  hasCallback : Bool
  deriving Repr, DecidableEq

/-- The mutable state of `NotificationManager`: the handler map (keyed by the
server-assigned notification handle) and the running flag. -/
structure NMState where
  handlers : List (Nat × NotifHandlerEntry)
  running : Bool
  deriving Repr, DecidableEq

/-- `NotificationManager.Start` (part_000:181-195): error when already
running, otherwise mark running. -/
def NotificationManager.start (s : NMState) : Except String Unit × NMState :=
  if s.running then (.error "notification manager already running", s)
  else (.ok (), { s with running := true })

/-- `NotificationManager.Stop` (part_000:198-207): a no-op when not running,
otherwise clear the running flag. -/
def NotificationManager.stop (s : NMState) : NMState :=
  if s.running then { s with running := false } else s

/-- Go map `delete(nm.handlers, h)`. -/
def eraseHandler (h : Nat) (l : List (Nat × NotifHandlerEntry)) :
    List (Nat × NotifHandlerEntry) :=
  l.filter (fun p => p.1 ≠ h)

/-- How the DeleteDeviceNotification round-trip inside `Unsubscribe` ends. -/
inductive RpcOutcome where
  | transportError
  | result (code : Nat)
  deriving Repr, DecidableEq

/-- `NotificationManager.Unsubscribe` (part_000:146-178): error when the
handle is not registered; otherwise remove the handler-map entry first, then
send DeleteDeviceNotification and surface its failure or non-zero result. -/
def NotificationManager.unsubscribe (s : NMState) (h : Nat) (rpc : RpcOutcome) :
    Except String Unit × NMState :=
  match s.handlers.lookup h with
  | none => (.error "notification handle not found", s)
  | some _ =>
    let s1 : NMState := { s with handlers := eraseHandler h s.handlers }
    match rpc with
    | .transportError => (.error "failed to delete notification", s1)
    | .result code =>
      if code ≠ NoError then (.error "delete notification error", s1)
      else (.ok (), s1)

/-- FILETIME ticks per second (part_000:217). -/
def filetimeTicksPerSecond : Nat := 10000000

/-- Seconds between 1601-01-01 and 1970-01-01 (part_000:218). -/
def filetimeEpochDiff : Nat := 11644473600

/-- Go's `int64(x)` reinterpretation of a `uint64` value: values of at least
2^63 wrap to negative. -/
def int64OfUint64 (n : Nat) : Int :=
  if n < 9223372036854775808 then (n : Int) else (n : Int) - 18446744073709551616

/-- The seconds part of the FILETIME conversion (part_000:219):
`int64(stamp.Timestamp)/ticksPerSecond - epochDiff`, with the u64 timestamp
reinterpreted as `int64` and Go's truncated division. -/
def filetimeToUnixSeconds (ts : Nat) : Int :=
  Int.tdiv (int64OfUint64 ts) (filetimeTicksPerSecond : Int) - (filetimeEpochDiff : Int)

/-- The nanoseconds part of the FILETIME conversion (part_000:220):
`(int64(stamp.Timestamp) % ticksPerSecond) * 100`, with the u64 timestamp
reinterpreted as `int64` and Go's truncated remainder. -/
def filetimeToUnixNanos (ts : Nat) : Int :=
  Int.tmod (int64OfUint64 ts) (filetimeTicksPerSecond : Int) * 100

/-- What the dispatcher hands to a user callback: handle, wall-clock time
(seconds/nanoseconds since the Unix epoch, as built by `time.Unix`), data. -/
structure DeliveredSample where
  handle : Nat
  seconds : Int
  nanos : Int
  data : List Nat
  deriving Repr, DecidableEq

/-- The notification dispatch closure installed by `processNotifications`
(part_000:210-245): for each stamp convert the FILETIME timestamp, then for
each sample look up the handler by the sample's handle and, when one with a
callback is registered, deliver `{handle, timestamp, data}`. -/
def processDeviceNotification (s : NMState) (req : DeviceNotificationRequest) :
    List DeliveredSample :=
  req.stamps.flatMap fun stamp =>
    stamp.samples.filterMap fun sample =>
      match s.handlers.lookup sample.handle with
      | none => none
      | some entry =>
        if entry.hasCallback then
          some { handle := sample.handle,
                 seconds := filetimeToUnixSeconds stamp.timestamp,
                 nanos := filetimeToUnixNanos stamp.timestamp,
                 data := sample.data }
        else none

/-- A manager with one registered subscription on notification handle 7. -/
def sampleNMState : NMState :=
  { handlers := [(7, { handle := 7, varName := "MAIN.b", varHandle := 1,
                       hasCallback := true })]
    running := true }

/-! ## GetSymHandleByName (src/client.go:365-378) -/

/-- Modelled from the spec: `ams.ReadWriteResponse`
(`result:u32, length:u32, data:length bytes` after the header); the packet
file is not under src/. -/
structure ReadWriteResponse where
  amsHeader : AMSHeader
  result : Nat
  length : Nat
  data : List Nat
  deriving Repr, DecidableEq

/-- `binary.LittleEndian.Uint32(res.Data[:4])`: the little-endian u32 formed
from the first four bytes. -/
def leUint32OfFirst4 : List Nat → Nat
  | b0 :: b1 :: b2 :: b3 :: _ => b0 + b1 * 256 + b2 * 65536 + b3 * 16777216
  | _ => 0

/-- The response handling of `Client.GetSymHandleByName` (client.go:370-377):
error on a non-zero AMS error code, error on fewer than 4 data bytes,
otherwise the little-endian u32 of the first 4 data bytes. -/
def Client.getSymHandleFromResponse (res : ReadWriteResponse) : Except String Nat :=
  if res.amsHeader.errorCode ≠ NoError then .error "failed ReadWrite"
  else if res.data.length < 4 then .error "not enough data"
  else .ok (leUint32OfFirst4 res.data)

/-- A mock ReadWrite response carrying `result=0, data=[0x78,0x56,0x34,0x12]`. -/
def sampleRWResponse : ReadWriteResponse :=
  { amsHeader := { target := { netId := [0, 0, 0, 0, 0, 0], port := 0 },
                   sender := { netId := [0, 0, 0, 0, 0, 0], port := 0 },
                   cmdId := 9, stateFlags := 5, length := 12, errorCode := 0,
                   invokeId := 2 }
    result := 0, length := 4, data := [0x78, 0x56, 0x34, 0x12] }

/-! ## Struct fields and nested-field writes (src/unnamed/part_002, src/session.go) -/

/-- `StructField` (part_002): a field within a struct layout, with its offset
relative to the parent and its declared size. -/
structure StructField where
  name : String
  dataType : String
  offset : Nat
  size : Nat
  fields : List StructField

/-- The first field with the given name, as the `for`/`return` scan in
`FindFieldByPathWithOffset` selects it. -/
def lookupFieldByName (fields : List StructField) (n : String) : Option StructField :=
  fields.find? (fun f => f.name == n)

/-- `FindFieldByPathWithOffset` (part_002:238-255): walk the path from the
root, accumulating the absolute offset as the sum of each ancestor's relative
offset; an empty path or a missing name is an error (`none`). -/
def findFieldByPathWithOffset (fields : List StructField) :
    List String → Nat → Option (StructField × Nat)
  | [], _ => none
  | p :: ps, base =>
    match lookupFieldByName fields p with
    | none => none
    | some f =>
      match ps with
      | [] => some (f, base + f.offset)
      | _ :: _ => findFieldByPathWithOffset f.fields ps (base + f.offset)

/-- The spec's absolute offset of a path: the sum of the relative offsets of
the fields along the path ("absolute offsets are computed by walking a path
from the root and summing offsets").  Stated from the spec's words, to be
compared with what `findFieldByPathWithOffset` returns. -/
def pathOffsetSum (fields : List StructField) : List String → Option Nat
  | [] => none
  | p :: ps =>
    match lookupFieldByName fields p with
    | none => none
    | some f =>
      match ps with
      | [] => some f.offset
      | _ :: _ => (pathOffsetSum f.fields ps).map (fun rel => f.offset + rel)

/-- `copy(resp.Data[off:off+len(d)], d)` on a sufficiently long buffer:
the buffer with `d` spliced in at offset `off`. -/
def spliceAt (buf : List Nat) (off : Nat) (d : List Nat) : List Nat :=
  buf.take off ++ d ++ buf.drop (off + d.length)

/-- The post-read part of `Session.WriteNestedField` (session.go:366-377):
resolve the field by path with its absolute offset, check that the field lies
inside the buffer and that the data length equals the field's declared size,
then splice the data into the read-back struct bytes; the result is the
payload of the write request sent back (no write happens on an error). -/
def writeNestedFieldCore (fields : List StructField) (path : List String)
    (buf d : List Nat) : Except String (List Nat) :=
  match findFieldByPathWithOffset fields path 0 with
  | none => .error "field not found"
  | some (f, off) =>
    if off + f.size > buf.length ∨ d.length ≠ f.size then
      .error "field data size mismatch"
    else
      .ok (spliceAt buf off d)

/-- The spec's scenario-4 layout: `{a: INT@0, b: {c: DINT@0, d: REAL@4}@2}`. -/
def sampleStructLayout : List StructField :=
  [{ name := "a", dataType := "INT", offset := 0, size := 2, fields := [] },
   { name := "b", dataType := "ST_B", offset := 2, size := 8,
     fields := [{ name := "c", dataType := "DINT", offset := 0, size := 4, fields := [] },
                { name := "d", dataType := "REAL", offset := 4, size := 4, fields := [] }] }]

/-! ## Symbol metadata and cache-miss subscription (src/unnamed/part_002, src/session.go, src/unnamed/part_000) -/

/-- `binary.LittleEndian.Uint16(data[i:i+2])` on a length-checked slice. -/
def u16At (l : List Nat) (i : Nat) : Nat :=
  l.getD i 0 + l.getD (i + 1) 0 * 256

/-- `binary.LittleEndian.Uint32(data[i:i+4])` on a length-checked slice. -/
def u32At (l : List Nat) (i : Nat) : Nat :=
  l.getD i 0 + l.getD (i + 1) 0 * 256 + l.getD (i + 2) 0 * 65536 +
    l.getD (i + 3) 0 * 16777216

/-- The NUL-trimming applied to wire strings in `Client.GetSymbol`
(part_002:82-92): keep the bytes before the first NUL. -/
def trimAtNul (l : List Nat) : List Nat :=
  l.takeWhile (fun b => b ≠ 0)

/-- The ASCII bytes of the fallback type name "UNKNOWN" (part_002:94). -/
def unknownTypeName : List Nat := [85, 78, 75, 78, 79, 87, 78]

/-- `Symbol` (part_002): name, data type (modelled as its byte string), size
and fields.  There are no index group/offset fields in this struct. -/
structure GoSymbol where
  name : String
  dataType : List Nat
  size : Nat
  fields : List StructField

/-- The response parsing of `Client.GetSymbol` (part_002:34-104): require at
least 32 bytes; size at offset 12, name/type lengths at 24/26; the type
string follows the name and its NUL terminator and is NUL-trimmed, falling
back to "UNKNOWN" when its range exceeds the response; the parsed Symbol
carries only name, data type and size. -/
def clientGetSymbolParse (name : String) (respData : List Nat) :
    Except String GoSymbol :=
  if respData.length < 32 then .error "invalid symbol info response"
  else
    let size := u32At respData 12
    let nameLength := u16At respData 24
    let typeLength := u16At respData 26
    let typeStart := 30 + nameLength + 1
    let typeEnd := typeStart + typeLength
    let dataType :=
      if typeEnd ≤ respData.length then
        trimAtNul ((respData.drop typeStart).take typeLength)
      else unknownTypeName
    .ok { name := name, dataType := dataType, size := size, fields := [] }

/-- `SymbolInfo` (session.go): the cached per-name symbol metadata. -/
structure SymbolInfo where
  name : String
  dataType : List Nat
  size : Nat
  indexGroup : Nat
  indexOffset : Nat
  handle : Nat
  comment : List Nat
  fields : List StructField

/-- The `SymbolInfo` literal built by `Session.GetSymbol` on a cache miss
(session.go:236-241): only Name, DataType, Size and Fields are set; the Go
struct literal leaves IndexGroup, IndexOffset, Handle and Comment at their
zero values. -/
def sessionCacheMissInfo (sym : GoSymbol) : SymbolInfo :=
  { name := sym.name, dataType := sym.dataType, size := sym.size,
    indexGroup := 0, indexOffset := 0, handle := 0, comment := [],
    fields := sym.fields }

/-- `Session.GetSymbol` on a cache miss (session.go:223-245): fetch through
`Client.GetSymbol` and cache the resulting info. -/
def sessionGetSymbolMiss (name : String) (respData : List Nat) :
    Except String SymbolInfo :=
  match clientGetSymbolParse name respData with
  | .error e => .error e
  | .ok sym => .ok (sessionCacheMissInfo sym)

/-- `TransModeServerOnChange` (part_000:29). -/
def TransModeServerOnChange : Nat := 4

/-- `ams.AddDeviceNotificationRequest` (part_003). -/
structure AddDeviceNotificationRequest where
  tcpHeader : TCPHeader
  amsHeader : AMSHeader
  indexGroup : Nat
  indexOff : Nat
  length : Nat
  transMode : Nat
  maxDelay : Nat
  cycleTime : Nat
  reserved : List Nat
  deriving Repr, DecidableEq

/-- `ams.NewAddDeviceNotificationRequest` (part_003:152-173): headers with
the AddDeviceNotification command id and ADSCommand flags, remaining header
fields and the reserved block zero. -/
def NewAddDeviceNotificationRequest (target sender : Addr)
    (indexGroup indexOffset length transMode maxDelay cycleTime : Nat) :
    AddDeviceNotificationRequest :=
  { tcpHeader := { reserved := 0, length := 0 }
    amsHeader := { target := target, sender := sender,
                   cmdId := CmdADSAddDeviceNotification,
                   stateFlags := StateADSCommand, length := 0, errorCode := 0,
                   invokeId := 0 }
    indexGroup := indexGroup, indexOff := indexOffset, length := length,
    transMode := transMode, maxDelay := maxDelay, cycleTime := cycleTime,
    reserved := List.replicate 16 0 }

/-- The request built by `NotificationManager.Subscribe` (part_000:100-117):
length from the symbol's cached size, ServerOnChange transmission, max delay
and cycle time both `uint32(cycleTime.Nanoseconds() / 100)`, addressed by the
symbol's cached index group and index offset. -/
def subscribeBuildRequest (targetAddr senderAddr : Addr) (symbolInfo : SymbolInfo)
    (cycleTimeNs : Nat) : AddDeviceNotificationRequest :=
  NewAddDeviceNotificationRequest targetAddr senderAddr
    symbolInfo.indexGroup symbolInfo.indexOffset symbolInfo.size
    TransModeServerOnChange
    (cycleTimeNs / 100 % 4294967296) (cycleTimeNs / 100 % 4294967296)

/-! ## Theorems -/

theorem writeN_eq_of_length (data : List Nat) (h : data.length = n) :
    writeN data n = data := by
  subst h
  simp [writeN]

theorem readU16_u16le (n : Nat) (hn : n < 65536) (rest : List Nat) :
    readU16 (u16le n ++ rest) = some (n, rest) := by
  simp only [u16le, List.cons_append, List.nil_append, readU16]
  congr 1
  congr 1
  omega

theorem readU32_u32le (n : Nat) (hn : n < 4294967296) (rest : List Nat) :
    readU32 (u32le n ++ rest) = some (n, rest) := by
  simp only [u32le, List.cons_append, List.nil_append, readU32]
  congr 1
  congr 1
  omega

theorem readN_append (data rest : List Nat) :
    readN data.length (data ++ rest) = some (data, rest) := by
  simp [readN, List.take_append, List.drop_append]

theorem decodeAddr_encodeAddr (a : Addr) (hw : a.WF) (rest : List Nat) :
    decodeAddr (encodeAddr a ++ rest) = some (a, rest) := by
  obtain ⟨h6, hp⟩ := hw
  have h1 : readN 6 (a.netId ++ (u16le a.port ++ rest)) = some (a.netId, u16le a.port ++ rest) := by
    rw [← h6, readN_append]
  simp only [decodeAddr, encodeAddr, List.append_assoc, h1, readU16_u16le a.port hp rest]

theorem decodeAMSHeader_encodeAMSHeader (h : AMSHeader) (hw : h.WF) (rest : List Nat) :
    decodeAMSHeader (encodeAMSHeader h ++ rest) = some (h, rest) := by
  obtain ⟨ht, hs, hc, hf, hl, he, hi⟩ := hw
  simp only [decodeAMSHeader, encodeAMSHeader, List.append_assoc,
    decodeAddr_encodeAddr h.target ht, decodeAddr_encodeAddr h.sender hs,
    readU16_u16le h.cmdId hc, readU16_u16le h.stateFlags hf,
    readU32_u32le h.length hl, readU32_u32le h.errorCode he,
    readU32_u32le h.invokeId hi]

theorem decodeTCPHeader_encodeTCPHeader (h : TCPHeader) (hw : h.WF) (rest : List Nat) :
    decodeTCPHeader (encodeTCPHeader h ++ rest) = some (h, rest) := by
  obtain ⟨hr, hl⟩ := hw
  simp only [decodeTCPHeader, encodeTCPHeader, List.append_assoc,
    readU16_u16le h.reserved hr, readU32_u32le h.length hl]

theorem decodeWireSample_encodeWireSample (s : WireNotificationSample) (hw : s.WF)
    (rest : List Nat) :
    decodeWireSample (encodeWireSample s ++ rest) = some (s, rest) := by
  obtain ⟨hsz, hh, hs⟩ := hw
  have hdata : writeN s.data s.size = s.data := writeN_eq_of_length s.data hsz.symm
  have hrn : readN s.size (s.data ++ rest) = some (s.data, rest) := by
    rw [hsz, readN_append]
  simp only [decodeWireSample, encodeWireSample, List.append_assoc, hdata,
    readU32_u32le s.handle hh, readU32_u32le s.size hs, hrn]

theorem decodeWireSamples_encode (ss : List WireNotificationSample)
    (hw : ∀ s ∈ ss, s.WF) (rest : List Nat) :
    decodeWireSamples ss.length ((ss.map encodeWireSample).flatten ++ rest) =
      some (ss, rest) := by
  induction ss with
  | nil => simp [decodeWireSamples]
  | cons s ss ih =>
    have hs : s.WF := hw s (List.mem_cons_self s ss)
    have hss : ∀ x ∈ ss, x.WF := fun x hx => hw x (List.mem_cons_of_mem s hx)
    simp only [List.map_cons, List.flatten, List.length_cons, List.append_assoc,
      decodeWireSamples, decodeWireSample_encodeWireSample s hs, ih hss]

theorem decodeStamp_encodeStamp (st : NotificationStamp) (hw : st.WF) (rest : List Nat) :
    decodeStamp (encodeStamp st ++ rest) = some (st, rest) := by
  obtain ⟨hsc, hts, hscw, hsw⟩ := hw
  have hlow : st.timestamp % 4294967296 < 4294967296 := Nat.mod_lt _ (by norm_num)
  have hhigh : st.timestamp / 4294967296 % 4294967296 < 4294967296 :=
    Nat.mod_lt _ (by norm_num)
  have hdiv : st.timestamp / 4294967296 % 4294967296 = st.timestamp / 4294967296 := by
    apply Nat.mod_eq_of_lt
    omega
  have hsamples : decodeWireSamples st.sampleCount
      ((st.samples.map encodeWireSample).flatten ++ rest) = some (st.samples, rest) := by
    rw [hsc, decodeWireSamples_encode st.samples hsw]
  simp only [decodeStamp, encodeStamp, List.append_assoc,
    readU32_u32le _ hlow, readU32_u32le _ hhigh,
    readU32_u32le st.sampleCount hscw, hsamples]
  have hts' : st.timestamp % 4294967296 + st.timestamp / 4294967296 % 4294967296 *
      4294967296 = st.timestamp := by
    omega
  rw [hts']

theorem decodeStamps_encode (sts : List NotificationStamp)
    (hw : ∀ st ∈ sts, st.WF) (rest : List Nat) :
    decodeStamps sts.length ((sts.map encodeStamp).flatten ++ rest) = some (sts, rest) := by
  induction sts with
  | nil => simp [decodeStamps]
  | cons st sts ih =>
    have hst : st.WF := hw st (List.mem_cons_self st sts)
    have hsts : ∀ x ∈ sts, x.WF := fun x hx => hw x (List.mem_cons_of_mem st hx)
    simp only [List.map_cons, List.flatten, List.length_cons, List.append_assoc,
      decodeStamps, decodeStamp_encodeStamp st hst, ih hsts]

/-- C5: decoding the encoding of a well-formed DeviceNotification packet
(stamp count equal to the number of stamps, each stamp's sample count equal to
its number of samples, each sample's size equal to its data length, and
consistent headers) yields the packet back with all fields preserved. -/
theorem C5_deviceNotification_decode_encode (r : DeviceNotificationRequest) (hw : r.WF) :
    decodeDeviceNotificationRequest (encodeDeviceNotificationRequest r) = some r := by
  obtain ⟨htcp, hams, hlen, hsc, hscw, hst⟩ := hw
  have hstamps : decodeStamps r.stampCount
      ((r.stamps.map encodeStamp).flatten ++ []) = some (r.stamps, []) := by
    rw [hsc, decodeStamps_encode r.stamps hst]
  have hrw : encodeDeviceNotificationRequest r =
      encodeTCPHeader r.tcpHeader ++ (encodeAMSHeader r.amsHeader ++
        (u32le r.length ++ (u32le r.stampCount ++
          ((r.stamps.map encodeStamp).flatten ++ [])))) := by
    simp [encodeDeviceNotificationRequest, List.append_assoc]
  rw [hrw]
  simp only [decodeDeviceNotificationRequest,
    decodeTCPHeader_encodeTCPHeader r.tcpHeader htcp,
    decodeAMSHeader_encodeAMSHeader r.amsHeader hams,
    readU32_u32le r.length hlen, readU32_u32le r.stampCount hscw, hstamps]

/-- Witness for C5 at the concrete one-stamp, one-sample packet. -/
theorem C5_deviceNotification_decode_encode_witness :
    sampleNotificationPacket.WF ∧
      decodeDeviceNotificationRequest
        (encodeDeviceNotificationRequest sampleNotificationPacket) =
        some sampleNotificationPacket :=
  ⟨by decide, C5_deviceNotification_decode_encode sampleNotificationPacket (by decide)⟩

/-- Counterexample to C1: starting from an empty slot table, a send that ends
by read-timeout leaves its slot (invoke-id 1) registered, and a response for
that invoke-id arriving later is delivered into the orphaned slot rather than
dropped. -/
theorem C1_counterexample :
    (Client.send ⟨0, [], 0, 0⟩ true .timedOut).1 = .timeout ∧
      1 ∈ (Client.send ⟨0, [], 0, 0⟩ true .timedOut).2.handler ∧
      (receiveDeliverResponse (Client.send ⟨0, [], 0, 0⟩ true .timedOut).2 1).1 =
        .delivered := by
  decide

/-- C1 as amended: a send that completes by read-timeout or context
cancellation leaves its response-slot registration in place (it is removed
only on a failed connection write); a response for that invoke-id arriving
later still finds the slot, is delivered into the orphaned channel, and only
then is the registration removed. -/
theorem C1_amended_slot_kept_on_timeout (st : ClientState) :
    (Client.send st true .ctxCancelled).1 = .cancelled ∧
    (Client.send st true .timedOut).1 = .timeout ∧
    ((st.nextInvokeID + 1) % 4294967296) ∈ (Client.send st true .ctxCancelled).2.handler ∧
    ((st.nextInvokeID + 1) % 4294967296) ∈ (Client.send st true .timedOut).2.handler ∧
    ((st.nextInvokeID + 1) % 4294967296) ∉ (Client.send st false .timedOut).2.handler ∧
    (receiveDeliverResponse (Client.send st true .timedOut).2
        ((st.nextInvokeID + 1) % 4294967296)).1 = .delivered ∧
    ((st.nextInvokeID + 1) % 4294967296) ∉
      (receiveDeliverResponse (Client.send st true .timedOut).2
        ((st.nextInvokeID + 1) % 4294967296)).2.handler := by
  constructor
  · simp [Client.send]
  constructor
  · simp [Client.send]
  constructor
  · simp only [Client.send]
    by_cases hm : ((st.nextInvokeID + 1) % 4294967296) ∈ st.handler <;>
      simp [insertHandler, hm]
  constructor
  · simp only [Client.send]
    by_cases hm : ((st.nextInvokeID + 1) % 4294967296) ∈ st.handler <;>
      simp [insertHandler, hm]
  constructor
  · simp [Client.send, removeHandler, List.mem_filter]
  · have hmem : ((st.nextInvokeID + 1) % 4294967296) ∈
        (Client.send st true .timedOut).2.handler := by
      simp only [Client.send]
      by_cases hm : ((st.nextInvokeID + 1) % 4294967296) ∈ st.handler <;>
        simp [insertHandler, hm]
    constructor
    · simp [receiveDeliverResponse, hmem]
    · simp [receiveDeliverResponse, hmem, removeHandler, List.mem_filter]

/-- C3: a body-decode failure on a frame the pump classified as a response is
fatal (the pump terminates); a body-decode failure on a DeviceNotification
frame lets the pump continue, logging exactly when a notification callback is
registered. -/
theorem C3_decode_failure_handling (h : AMSHeader) (cb : Bool) :
    (classifyHeader h = .readResponse ∨ classifyHeader h = .writeResponse ∨
        classifyHeader h = .readWriteResponse ∨
        classifyHeader h = .addDeviceNotificationResponse ∨
        classifyHeader h = .deleteDeviceNotificationResponse →
      receiveStepDecodeFailure (classifyHeader h) cb = (.terminate, true)) ∧
    (classifyHeader h = .deviceNotificationRequest →
      receiveStepDecodeFailure (classifyHeader h) cb = (.continueLoop, cb)) := by
  constructor
  · intro hk
    rcases hk with hk | hk | hk | hk | hk <;> rw [hk] <;> rfl
  · intro hk
    rw [hk]
    rfl

/-- Witness for C3: a Read response header (cmd 2, response bit set) is fatal
on decode failure; a DeviceNotification header (cmd 8) is skipped without
logging when no callback is registered. -/
theorem C3_decode_failure_handling_witness :
    receiveStepDecodeFailure
        (classifyHeader { target := { netId := [0, 0, 0, 0, 0, 0], port := 0 },
                          sender := { netId := [0, 0, 0, 0, 0, 0], port := 0 },
                          cmdId := 2, stateFlags := 5, length := 0, errorCode := 0,
                          invokeId := 0 }) true = (.terminate, true) ∧
      receiveStepDecodeFailure
        (classifyHeader { target := { netId := [0, 0, 0, 0, 0, 0], port := 0 },
                          sender := { netId := [0, 0, 0, 0, 0, 0], port := 0 },
                          cmdId := 8, stateFlags := 4, length := 0, errorCode := 0,
                          invokeId := 0 }) false = (.continueLoop, false) :=
  ⟨(C3_decode_failure_handling _ true).1 (Or.inl (by decide)),
   (C3_decode_failure_handling _ false).2 (by decide)⟩

/-- C4: the single ReadStateResponse written for an inbound ReadState request
carries the client's cached adsState and deviceState, a zero result, and the
request's invoke-id. -/
theorem C4_readState_reply (st : ClientState) (req : ReadStateRequest) :
    (Client.handleReadStateRequest st req).result = NoError ∧
    (Client.handleReadStateRequest st req).adsState = st.adsState ∧
    (Client.handleReadStateRequest st req).deviceState = st.deviceState ∧
    (Client.handleReadStateRequest st req).amsHeader.invokeId =
      req.amsHeader.invokeId :=
  ⟨rfl, rfl, rfl, rfl⟩

/-- Counterexample to C6: the notification frame with stamp timestamp
132580694400000000 and one sample `{handle=7, size=1, data=[0x01]}` is
delivered with Unix time 1613595840 s (2021-02-17T21:04:00Z), not
1609459200 s (2021-01-01T00:00:00Z) as the claim states. -/
theorem C6_counterexample :
    processDeviceNotification sampleNMState sampleNotificationPacket =
      [{ handle := 7, seconds := 1613595840, nanos := 0, data := [1] }] ∧
    (1613595840 : Int) ≠ 1609459200 := by
  constructor
  · rfl
  · decide

theorem int_tdiv_coe (m k : Nat) :
    Int.tdiv (m : Int) (k : Int) = ((m / k : Nat) : Int) :=
  rfl

theorem int_tmod_coe (m k : Nat) :
    Int.tmod (m : Int) (k : Int) = ((m % k : Nat) : Int) :=
  rfl

/-- C6 as amended: every delivered sample comes from some stamp and sample of
the frame, keeps that sample's handle and data, and carries the stamp's
timestamp converted by reinterpreting the u64 tick count as `int64` and
subtracting the fixed epoch difference of 11644473600 seconds from its
truncated tick-seconds (the tick remainder times 100 as nanoseconds); for
every timestamp below 2^63 — every valid FILETIME — this is plain division,
and in particular the frame with stamp timestamp 132580694400000000 and
sample `{handle=7, size=1, data=[0x01]}` is delivered with timestamp
2021-02-17T21:04:00Z (Unix 1613595840). -/
theorem C6_filetime_conversion :
    (∀ (s : NMState) (req : DeviceNotificationRequest),
      ∀ d ∈ processDeviceNotification s req,
        ∃ stamp ∈ req.stamps, ∃ sample ∈ stamp.samples,
          d.handle = sample.handle ∧ d.data = sample.data ∧
          d.seconds =
            Int.tdiv (int64OfUint64 stamp.timestamp) 10000000 - 11644473600 ∧
          d.nanos = Int.tmod (int64OfUint64 stamp.timestamp) 10000000 * 100 ∧
          (stamp.timestamp < 9223372036854775808 →
            d.seconds = ((stamp.timestamp / 10000000 : Nat) : Int) - 11644473600 ∧
            d.nanos = ((stamp.timestamp % 10000000 : Nat) : Int) * 100)) ∧
    processDeviceNotification sampleNMState sampleNotificationPacket =
      [{ handle := 7, seconds := 1613595840, nanos := 0, data := [1] }] := by
  constructor
  · intro s req d hd
    simp only [processDeviceNotification, List.mem_flatMap, List.mem_filterMap] at hd
    obtain ⟨stamp, hstamp, sample, hsample, hf⟩ := hd
    refine ⟨stamp, hstamp, sample, hsample, ?_⟩
    split at hf
    · exact absurd hf (by simp)
    · split at hf
      · cases hf
        refine ⟨rfl, rfl, rfl, rfl, fun hlt => ?_⟩
        have hcast : int64OfUint64 stamp.timestamp = (stamp.timestamp : Int) := by
          simp [int64OfUint64, hlt]
        constructor
        · show filetimeToUnixSeconds stamp.timestamp = _
          rw [filetimeToUnixSeconds, hcast, int_tdiv_coe]
          rfl
        · show filetimeToUnixNanos stamp.timestamp = _
          rw [filetimeToUnixNanos, hcast, int_tmod_coe]
          rfl
      · exact absurd hf (by simp)
  · rfl

/-- Witness for C6 as amended at the concrete frame: the delivered sample is
traced back to the packet's single stamp and sample with the converted time. -/
theorem C6_filetime_conversion_witness :
    ∃ stamp ∈ sampleNotificationPacket.stamps, ∃ sample ∈ stamp.samples,
      (⟨7, 1613595840, 0, [1]⟩ : DeliveredSample).handle = sample.handle ∧
      (⟨7, 1613595840, 0, [1]⟩ : DeliveredSample).data = sample.data ∧
      (⟨7, 1613595840, 0, [1]⟩ : DeliveredSample).seconds =
        Int.tdiv (int64OfUint64 stamp.timestamp) 10000000 - 11644473600 ∧
      (⟨7, 1613595840, 0, [1]⟩ : DeliveredSample).nanos =
        Int.tmod (int64OfUint64 stamp.timestamp) 10000000 * 100 ∧
      (stamp.timestamp < 9223372036854775808 →
        (⟨7, 1613595840, 0, [1]⟩ : DeliveredSample).seconds =
          ((stamp.timestamp / 10000000 : Nat) : Int) - 11644473600 ∧
        (⟨7, 1613595840, 0, [1]⟩ : DeliveredSample).nanos =
          ((stamp.timestamp % 10000000 : Nat) : Int) * 100) :=
  C6_filetime_conversion.1 sampleNMState sampleNotificationPacket
    ⟨7, 1613595840, 0, [1]⟩ (by rw [C6_filetime_conversion.2]; exact List.mem_singleton.mpr rfl)

/-- C7: a ReadWrite response with zero error code and at least 4 data bytes
yields the little-endian u32 of its first 4 data bytes as the handle; with
fewer than 4 data bytes it yields an error. -/
theorem C7_getSymHandleByName (res : ReadWriteResponse)
    (h0 : res.amsHeader.errorCode = 0) :
    (4 ≤ res.data.length →
      Client.getSymHandleFromResponse res = .ok (leUint32OfFirst4 res.data)) ∧
    (res.data.length < 4 →
      Client.getSymHandleFromResponse res = .error "not enough data") := by
  constructor
  · intro hlen
    simp [Client.getSymHandleFromResponse, h0, NoError, Nat.not_lt.mpr hlen]
  · intro hlen
    simp [Client.getSymHandleFromResponse, h0, NoError, hlen]

/-- Witness for C7: the mock response data `[0x78,0x56,0x34,0x12]` yields
handle 0x12345678, and the same response truncated to 3 bytes errors. -/
theorem C7_getSymHandleByName_witness :
    Client.getSymHandleFromResponse sampleRWResponse = .ok 0x12345678 ∧
      Client.getSymHandleFromResponse
        { sampleRWResponse with data := [0x78, 0x56, 0x34] } =
        .error "not enough data" := by
  constructor
  · have h := (C7_getSymHandleByName sampleRWResponse rfl).1 (by decide)
    simpa using h
  · exact (C7_getSymHandleByName
      { sampleRWResponse with data := [0x78, 0x56, 0x34] } rfl).2 (by decide)

/-- Counterexample to C8: calling `Start` on an already-running manager does
not succeed — it returns the "already running" error (the state is unchanged). -/
theorem C8_counterexample :
    (NotificationManager.start { handlers := [], running := true }).1 ≠ .ok () ∧
      NotificationManager.start { handlers := [], running := true } =
        (.error "notification manager already running",
         { handlers := [], running := true }) := by
  constructor
  · simp [NotificationManager.start]
  · rfl

/-- C8 as amended: `Stop` is idempotent (a no-op on a non-running manager,
and repeating it changes nothing), while `Start` on an already-running
manager returns an error and leaves the state unchanged (still running);
`Start` on a stopped manager succeeds and only sets the running flag. -/
theorem C8_lifecycle (s : NMState) :
    (s.running = true → NotificationManager.start s =
      (.error "notification manager already running", s)) ∧
    (s.running = false →
      NotificationManager.start s = (.ok (), { s with running := true })) ∧
    (s.running = false → NotificationManager.stop s = s) ∧
    NotificationManager.stop (NotificationManager.stop s) =
      NotificationManager.stop s := by
  refine ⟨fun h => ?_, fun h => ?_, fun h => ?_, ?_⟩
  · simp [NotificationManager.start, h]
  · simp [NotificationManager.start, h]
  · simp [NotificationManager.stop, h]
  · by_cases h : s.running <;> simp [NotificationManager.stop, h]

/-- Witness for C8 as amended at concrete running and stopped managers. -/
theorem C8_lifecycle_witness :
    NotificationManager.start { handlers := [], running := true } =
      (.error "notification manager already running",
       { handlers := [], running := true }) ∧
    NotificationManager.start { handlers := [], running := false } =
      (.ok (), { handlers := [], running := true }) ∧
    NotificationManager.stop { handlers := [], running := false } =
      { handlers := [], running := false } :=
  ⟨(C8_lifecycle { handlers := [], running := true }).1 rfl,
   (C8_lifecycle { handlers := [], running := false }).2.1 rfl,
   (C8_lifecycle { handlers := [], running := false }).2.2.1 rfl⟩

theorem lookup_eraseHandler (h : Nat) (l : List (Nat × NotifHandlerEntry)) :
    (eraseHandler h l).lookup h = none := by
  induction l with
  | nil => rfl
  | cons p t ih =>
    rcases p with ⟨k, v⟩
    by_cases hp : k = h
    · simpa [eraseHandler, List.filter_cons, hp] using ih
    · have hkeep : eraseHandler h ((k, v) :: t) = (k, v) :: eraseHandler h t := by
        simp [eraseHandler, List.filter_cons, hp]
      have hbk : (h == k) = false := beq_eq_false_iff_ne.mpr (Ne.symm hp)
      rw [hkeep]
      simp only [List.lookup, hbk]
      exact ih

/-- C10: `Unsubscribe` on a registered handle removes the handler-map entry
before the DeleteDeviceNotification round-trip, so the entry is absent
afterwards whatever the round-trip outcome; on an unregistered handle it
returns an error and leaves the map unchanged. -/
theorem C10_unsubscribe (s : NMState) (h : Nat) (rpc : RpcOutcome) :
    (s.handlers.lookup h ≠ none →
      (NotificationManager.unsubscribe s h rpc).2.handlers =
          eraseHandler h s.handlers ∧
        (NotificationManager.unsubscribe s h rpc).2.handlers.lookup h = none) ∧
    (s.handlers.lookup h = none →
      NotificationManager.unsubscribe s h rpc =
        (.error "notification handle not found", s)) := by
  constructor
  · intro hreg
    rcases hlk : s.handlers.lookup h with _ | entry
    · exact absurd hlk hreg
    · have hout : (NotificationManager.unsubscribe s h rpc).2.handlers =
          eraseHandler h s.handlers := by
        simp only [NotificationManager.unsubscribe, hlk]
        rcases rpc with _ | code
        · rfl
        · by_cases hc : code ≠ NoError <;> simp [hc]
      exact ⟨hout, hout ▸ lookup_eraseHandler h s.handlers⟩
  · intro habs
    simp [NotificationManager.unsubscribe, habs]

/-- Witness for C10: with handle 7 registered, unsubscribing it under a
transport error still leaves the map without the entry; unsubscribing the
unregistered handle 9 errors and changes nothing. -/
theorem C10_unsubscribe_witness :
    ((NotificationManager.unsubscribe sampleNMState 7 .transportError).2.handlers =
        eraseHandler 7 sampleNMState.handlers ∧
      (NotificationManager.unsubscribe sampleNMState 7
          .transportError).2.handlers.lookup 7 = none) ∧
    NotificationManager.unsubscribe sampleNMState 9 (.result 0) =
      (.error "notification handle not found", sampleNMState) :=
  ⟨(C10_unsubscribe sampleNMState 7 .transportError).1 (by decide),
   (C10_unsubscribe sampleNMState 9 (.result 0)).2 (by decide)⟩

theorem findFieldByPathWithOffset_pathOffsetSum :
    ∀ (path : List String) (fields : List StructField) (base : Nat)
      (f : StructField) (off : Nat),
      findFieldByPathWithOffset fields path base = some (f, off) →
      ∃ rel, pathOffsetSum fields path = some rel ∧ off = base + rel := by
  intro path
  induction path with
  | nil =>
    intro fields base f off h
    simp [findFieldByPathWithOffset] at h
  | cons p ps ih =>
    intro fields base f off h
    simp only [findFieldByPathWithOffset] at h
    rcases hlk : lookupFieldByName fields p with _ | f0 <;> rw [hlk] at h
    · simp at h
    · cases ps with
      | nil =>
        simp only [Option.some.injEq, Prod.mk.injEq] at h
        obtain ⟨hf, hoff⟩ := h
        exact ⟨f0.offset, by simp [pathOffsetSum, hlk], hoff.symm⟩
      | cons q qs =>
        obtain ⟨rel, hsum, hoff⟩ := ih f0.fields (base + f0.offset) f off h
        refine ⟨f0.offset + rel, ?_, by omega⟩
        have hunf : pathOffsetSum fields (p :: q :: qs) =
            (pathOffsetSum f0.fields (q :: qs)).map (fun r => f0.offset + r) := by
          simp only [pathOffsetSum, hlk]
        rw [hunf, hsum]
        rfl

/-- C2: when the cached layout resolves `path` to field `f` at absolute
offset `off` (which equals the sum of the relative offsets along the path)
and the field lies within the bytes just read, then data of exactly the
field's declared size is spliced in at that offset — the written buffer keeps
every byte outside `off..off+len(d)` and carries `d` there — while data of
any other size yields the shape-mismatch error and no write. -/
theorem C2_writeNestedField (fields : List StructField) (path : List String)
    (buf d : List Nat) (f : StructField) (off : Nat)
    (hfind : findFieldByPathWithOffset fields path 0 = some (f, off))
    (hfit : off + f.size ≤ buf.length) :
    pathOffsetSum fields path = some off ∧
    (d.length = f.size →
      writeNestedFieldCore fields path buf d = .ok (spliceAt buf off d) ∧
      (spliceAt buf off d).length = buf.length ∧
      ((spliceAt buf off d).drop off).take d.length = d ∧
      (∀ i, i < off → (spliceAt buf off d)[i]? = buf[i]?) ∧
      (∀ i, off + d.length ≤ i → (spliceAt buf off d)[i]? = buf[i]?)) ∧
    (d.length ≠ f.size →
      writeNestedFieldCore fields path buf d = .error "field data size mismatch") := by
  obtain ⟨rel, hsum, hoff⟩ := findFieldByPathWithOffset_pathOffsetSum path fields 0 f off hfind
  have hrel : rel = off := by omega
  rw [hrel] at hsum
  have htakelen : (buf.take off).length = off := by
    simp only [List.length_take]
    omega
  refine ⟨hsum, fun hlen => ?_, fun hlen => ?_⟩
  · have hok : writeNestedFieldCore fields path buf d = .ok (spliceAt buf off d) := by
      simp only [writeNestedFieldCore, hfind]
      rw [if_neg]
      push_neg
      omega
    have hdlen : off + d.length ≤ buf.length := by omega
    refine ⟨hok, ?_, ?_, fun i hi => ?_, fun i hi => ?_⟩
    · simp only [spliceAt, List.length_append, List.length_take, List.length_drop]
      omega
    · rw [spliceAt, List.append_assoc, List.drop_left' htakelen, List.take_left]
    · rw [spliceAt, List.append_assoc,
        List.getElem?_append_left (by omega : i < (buf.take off).length),
        List.getElem?_take_of_lt hi]
    · rw [spliceAt, List.append_assoc,
        List.getElem?_append_right (by omega : (buf.take off).length ≤ i),
        List.getElem?_append_right (by simp; omega : d.length ≤ i - (buf.take off).length),
        List.getElem?_drop]
      congr 1
      simp only [htakelen, List.length_take]
      omega
  · simp only [writeNestedFieldCore, hfind]
    rw [if_pos (Or.inr hlen)]

/-- Witness for C2 on the scenario-4 layout: writing the 4 encoded bytes of a
REAL to path `["b","d"]` of a 10-byte struct splices bytes 6..10; a 3-byte
payload is rejected with the shape-mismatch error. -/
theorem C2_writeNestedField_witness :
    pathOffsetSum sampleStructLayout ["b", "d"] = some 6 ∧
    writeNestedFieldCore sampleStructLayout ["b", "d"]
        [10, 11, 12, 13, 14, 15, 16, 17, 18, 19] [0, 0, 192, 63] =
      .ok [10, 11, 12, 13, 14, 15, 0, 0, 192, 63] ∧
    writeNestedFieldCore sampleStructLayout ["b", "d"]
        [10, 11, 12, 13, 14, 15, 16, 17, 18, 19] [1, 2, 3] =
      .error "field data size mismatch" := by
  have h1 := C2_writeNestedField sampleStructLayout ["b", "d"]
    [10, 11, 12, 13, 14, 15, 16, 17, 18, 19] [0, 0, 192, 63]
    { name := "d", dataType := "REAL", offset := 4, size := 4, fields := [] } 6
    rfl (by decide)
  have h2 := C2_writeNestedField sampleStructLayout ["b", "d"]
    [10, 11, 12, 13, 14, 15, 16, 17, 18, 19] [1, 2, 3]
    { name := "d", dataType := "REAL", offset := 4, size := 4, fields := [] } 6
    rfl (by decide)
  refine ⟨h1.1, ?_, h2.2.2 (by decide)⟩
  rw [(h1.2.1 (by decide)).1]
  rfl

/-- C9: a symbol cached by `Session.GetSymbol` on a cache miss always has
IndexGroup = 0 and IndexOffset = 0 (the single-symbol fetch never parses
those fields), so a Subscribe for it sends an AddDeviceNotification request
with indexGroup = 0 and indexOffset = 0. -/
theorem C9_cacheMiss_zero_index (name : String) (respData : List Nat)
    (info : SymbolInfo) (h : sessionGetSymbolMiss name respData = .ok info)
    (target sender : Addr) (cycleNs : Nat) :
    info.indexGroup = 0 ∧ info.indexOffset = 0 ∧
    (subscribeBuildRequest target sender info cycleNs).indexGroup = 0 ∧
    (subscribeBuildRequest target sender info cycleNs).indexOff = 0 := by
  simp only [sessionGetSymbolMiss, clientGetSymbolParse] at h
  split at h
  · exact absurd h (by simp)
  · simp only [Except.ok.injEq] at h
    subst h
    exact ⟨rfl, rfl, rfl, rfl⟩

/-- Witness for C9: fetching a symbol from a 32-byte all-zero response caches
an info with zero index group/offset, and the Subscribe request built from it
addresses index group 0, index offset 0. -/
theorem C9_cacheMiss_zero_index_witness :
    ∃ info, sessionGetSymbolMiss "MAIN.x" (List.replicate 32 0) = .ok info ∧
      info.indexGroup = 0 ∧ info.indexOffset = 0 ∧
      (subscribeBuildRequest { netId := [192, 168, 0, 1, 1, 1], port := 851 }
          { netId := [192, 168, 0, 2, 1, 1], port := 32905 } info
          10000000).indexGroup = 0 ∧
      (subscribeBuildRequest { netId := [192, 168, 0, 1, 1, 1], port := 851 }
          { netId := [192, 168, 0, 2, 1, 1], port := 32905 } info
          10000000).indexOff = 0 :=
  ⟨_, rfl, C9_cacheMiss_zero_index "MAIN.x" (List.replicate 32 0) _ rfl
    { netId := [192, 168, 0, 1, 1, 1], port := 851 }
    { netId := [192, 168, 0, 2, 1, 1], port := 32905 } 10000000⟩

end Goads
